import Mathlib

/-!
Shallow embedding of the dynamic-to-static value marshaling layer of
go-sqlite-lite (`callback.go`): argument converters turning SQLite value
cells into Go `reflect.Value`s, return converters turning Go values into
engine result-slot writes, and the builders that select a converter from a
declared Go type at registration time.

Modelling conventions:
- SQLite value cells are the inductive `Cell`; the engine type codes
  INTEGER/FLOAT/TEXT/BLOB/NULL are the SQLite codes 1..5.
- Go `reflect.Value` is the inductive `Value`; `reflect.Type` is `GoType`
  and `reflect.Kind` is `GoKind`. Go strings are byte lists (Go strings
  are byte strings); byte slices are `List Nat` of byte values. A nil
  byte slice is represented as the empty list (the code treats the two
  identically: both take the `len == 0` path).
- A converter that can reach a Go `panic` returns `Option`, with `none`
  modelling the panic; `Except Err` models the Go `(value, error)` pair,
  of which exactly one is non-zero.
- Return converters produce the ordered list of engine result-slot
  writes they perform, together with the error they return.
- Platform-width `int`/`uint` are modelled at 64 bits, the common case.
- `reflect.Value.Convert` is modelled on the conversions the code
  exercises: integer-width to integer-width (Go semantics: reduce the
  mathematical value modulo 2^w, two's complement for signed targets)
  and float64 to float32 (payload carried; 32-bit rounding not modelled,
  no claim depends on float payloads).
-/

namespace GoSqlite

/-- Modelled from the spec: the single error taxonomy tag `MISUSE` used for
all conversion and type-mismatch failures (the error-code constants live
outside the marshaling file). -/
inductive ErrCode where
  | MISUSE
deriving DecidableEq, Repr

/-- Modelled from the spec: `pkgErr(code, format, args...)` builds a
package error carrying the taxonomy tag and a human-readable message
(the helper itself lives outside the marshaling file); formatting is done
at call sites by string concatenation. -/
structure Err where
  code : ErrCode
  msg : String
deriving DecidableEq, Repr

def pkgErr (code : ErrCode) (msg : String) : Err := ⟨code, msg⟩

/-- Go `reflect.Kind` (the subset of kinds the marshaling layer can meet). -/
inductive GoKind where
  | invalid
  | bool
  | int_
  | int8
  | int16
  | int32
  | int64
  | uint_
  | uint8
  | uint16
  | uint32
  | uint64
  | float32
  | float64
  | string
  | slice
  | interface_
  | struct_
  | ptr
  | map_
deriving DecidableEq, Repr

def GoKind.name : GoKind → String
  | .invalid => "invalid"
  | .bool => "bool"
  | .int_ => "int"
  | .int8 => "int8"
  | .int16 => "int16"
  | .int32 => "int32"
  | .int64 => "int64"
  | .uint_ => "uint"
  | .uint8 => "uint8"
  | .uint16 => "uint16"
  | .uint32 => "uint32"
  | .uint64 => "uint64"
  | .float32 => "float32"
  | .float64 => "float64"
  | .string => "string"
  | .slice => "slice"
  | .interface_ => "interface"
  | .struct_ => "struct"
  | .ptr => "ptr"
  | .map_ => "map"

/-- Go `reflect.Type` (the subset the marshaling layer can meet).
`interface_ n` is an interface type with `n` methods; `struct_ name` is a
named struct type. -/
inductive GoType where
  | bool
  | int_
  | int8
  | int16
  | int32
  | int64
  | uint_
  | uint8
  | uint16
  | uint32
  | uint64
  | float32
  | float64
  | string
  | slice (elem : GoType)
  | interface_ (numMethod : Nat)
  | struct_ (name : String)
  | ptr (elem : GoType)
deriving DecidableEq, Repr

/-- `reflect.Type.Kind()`. -/
def GoType.kind : GoType → GoKind
  | .bool => .bool
  | .int_ => .int_
  | .int8 => .int8
  | .int16 => .int16
  | .int32 => .int32
  | .int64 => .int64
  | .uint_ => .uint_
  | .uint8 => .uint8
  | .uint16 => .uint16
  | .uint32 => .uint32
  | .uint64 => .uint64
  | .float32 => .float32
  | .float64 => .float64
  | .string => .string
  | .slice _ => .slice
  | .interface_ _ => .interface_
  | .struct_ _ => .struct_
  | .ptr _ => .ptr

/-- `reflect.Type.NumMethod()` (only meaningful for interface types here). -/
def GoType.numMethod : GoType → Nat
  | .interface_ n => n
  | _ => 0

/-- `reflect.Type.Elem()` followed by `.Kind()` (slices and pointers). -/
def GoType.elemKind : GoType → GoKind
  | .slice e => e.kind
  | .ptr e => e.kind
  | _ => .invalid

/-- `reflect.Type.String()`, as interpolated into `pkgErr` messages. -/
def GoType.name : GoType → String
  | .bool => "bool"
  | .int_ => "int"
  | .int8 => "int8"
  | .int16 => "int16"
  | .int32 => "int32"
  | .int64 => "int64"
  | .uint_ => "uint"
  | .uint8 => "uint8"
  | .uint16 => "uint16"
  | .uint32 => "uint32"
  | .uint64 => "uint64"
  | .float32 => "float32"
  | .float64 => "float64"
  | .string => "string"
  | .slice e => "[]" ++ e.name
  | .interface_ 0 => "interface {}"
  | .interface_ (_ + 1) => "interface { ... }"
  | .struct_ n => n
  | .ptr e => "*" ++ e.name

/-- A SQLite value cell (`*C.sqlite3_value`): exactly one engine Kind at a
time. Text and blob payloads are the engine-reported bytes (text may hold
embedded NUL bytes; `sqlite3_value_bytes` reports the full length). -/
inductive Cell where
  | integer (i : Int)
  | float (f : Float)
  | text (bs : List Nat)
  | blob (bs : List Nat)
  | null
deriving Repr

/-- Modelled from the spec: the engine type-code constants (SQLite codes;
declared outside the marshaling file). -/
def INTEGER : Nat := 1
def FLOAT : Nat := 2
def TEXT : Nat := 3
def BLOB : Nat := 4
def NULL : Nat := 5

/-- `C.sqlite3_value_type`. -/
def sqlite3_value_type : Cell → Nat
  | .integer _ => INTEGER
  | .float _ => FLOAT
  | .text _ => TEXT
  | .blob _ => BLOB
  | .null => NULL

/-- `C.sqlite3_value_int64`; only called after the INTEGER type check, so
the non-integer branches are never reached by the converters. -/
def sqlite3_value_int64 : Cell → Int
  | .integer i => i
  | _ => 0

/-- `C.sqlite3_value_double`; only called after the FLOAT type check. -/
def sqlite3_value_double : Cell → Float
  | .float f => f
  | _ => 0.0

/-- The byte payload behind `sqlite3_value_blob` / `sqlite3_value_text`,
whose length is `sqlite3_value_bytes`. -/
def cellBytes : Cell → List Nat
  | .text bs => bs
  | .blob bs => bs
  | _ => []

/-- `C.GoBytes(ptr, len)` with `len = sqlite3_value_bytes`: copies the full
engine-reported byte payload. -/
def goBytes (c : Cell) : List Nat := cellBytes c

/-- `C.GoStringN(ptr, len)`: copies exactly `len` bytes as a Go string,
embedded NUL bytes included. -/
def goStringN (c : Cell) : List Nat := cellBytes c

/-- `C.GoString(ptr)`: reads the nul-terminated C string, i.e. the prefix
of the payload before the first NUL byte. -/
def goString (c : Cell) : List Nat := (cellBytes c).takeWhile (fun b => b ≠ 0)

/-- Go `reflect.Value`: a dynamically typed box. Numeric constructors carry
the mathematical value (signed as `Int`, unsigned as `Nat`); `vSlice ek n`
models a slice value whose element kind is not otherwise tracked (byte
slices are represented by `vBytes`); `vStruct name` a struct value. -/
inductive Value where
  | vBool (b : Bool)
  | vInt (i : Int)
  | vInt8 (i : Int)
  | vInt16 (i : Int)
  | vInt32 (i : Int)
  | vInt64 (i : Int)
  | vUint (n : Nat)
  | vUint8 (n : Nat)
  | vUint16 (n : Nat)
  | vUint32 (n : Nat)
  | vUint64 (n : Nat)
  | vFloat32 (f : Float)
  | vFloat64 (f : Float)
  | vString (s : List Nat)
  | vBytes (bs : List Nat)
  | vSlice (ek : GoKind) (len : Nat)
  | vStruct (name : String)
deriving Repr

/-- `reflect.Value.Type().Kind()`. -/
def Value.kind : Value → GoKind
  | .vBool _ => .bool
  | .vInt _ => .int_
  | .vInt8 _ => .int8
  | .vInt16 _ => .int16
  | .vInt32 _ => .int32
  | .vInt64 _ => .int64
  | .vUint _ => .uint_
  | .vUint8 _ => .uint8
  | .vUint16 _ => .uint16
  | .vUint32 _ => .uint32
  | .vUint64 _ => .uint64
  | .vFloat32 _ => .float32
  | .vFloat64 _ => .float64
  | .vString _ => .string
  | .vBytes _ => .slice
  | .vSlice _ _ => .slice
  | .vStruct _ => .struct_

/-- `reflect.Value.Type().Elem().Kind()` for slice-kinded values. -/
def Value.elemKind : Value → GoKind
  | .vBytes _ => .uint8
  | .vSlice ek _ => ek
  | _ => .invalid

/-- `reflect.Value.Type().String()`, as interpolated into error messages. -/
def Value.typeName : Value → String
  | .vBool _ => "bool"
  | .vInt _ => "int"
  | .vInt8 _ => "int8"
  | .vInt16 _ => "int16"
  | .vInt32 _ => "int32"
  | .vInt64 _ => "int64"
  | .vUint _ => "uint"
  | .vUint8 _ => "uint8"
  | .vUint16 _ => "uint16"
  | .vUint32 _ => "uint32"
  | .vUint64 _ => "uint64"
  | .vFloat32 _ => "float32"
  | .vFloat64 _ => "float64"
  | .vString _ => "string"
  | .vBytes _ => "[]uint8"
  | .vSlice ek _ => "[]" ++ ek.name
  | .vStruct n => n

/-- The mathematical integer held by a numeric (integer-kinded) value. -/
def Value.asIntVal : Value → Option Int
  | .vInt i => some i
  | .vInt8 i => some i
  | .vInt16 i => some i
  | .vInt32 i => some i
  | .vInt64 i => some i
  | .vUint n => some n
  | .vUint8 n => some n
  | .vUint16 n => some n
  | .vUint32 n => some n
  | .vUint64 n => some n
  | _ => none

/-- Two's-complement reduction of a mathematical integer into `w` signed
bits (Go's conversion semantics for signed integer targets). -/
def wrapS (w : Nat) (i : Int) : Int :=
  let m := i % (2 ^ w : Int)
  if m < 2 ^ (w - 1) then m else m - 2 ^ w

/-- Reduction of a mathematical integer modulo `2^w` (Go's conversion
semantics for unsigned integer targets). -/
def wrapU (w : Nat) (i : Int) : Nat := (i % (2 ^ w : Int)).toNat

/-- Whether a kind is one of Go's numeric kinds. -/
def GoKind.isNumeric : GoKind → Bool
  | .int_ | .int8 | .int16 | .int32 | .int64 => true
  | .uint_ | .uint8 | .uint16 | .uint32 | .uint64 => true
  | .float32 | .float64 => true
  | _ => false

/-- `reflect.Type.ConvertibleTo`: in Go every numeric type converts to
every numeric type (no range check); identical kinds convert trivially.
(Go also allows some string conversions, never exercised here.) -/
def reflect_ConvertibleTo (src tgt : GoKind) : Bool :=
  (src.isNumeric && tgt.isNumeric) || src == tgt

/-- `reflect.Value.Convert(t)` on the conversions the code exercises:
integer-kinded sources to integer targets reduce the mathematical value
modulo the target width (two's complement for signed targets); float64
converts to float32 (payload carried). Other pairs are never reached. -/
def reflect_Convert (v : Value) (t : GoType) : Value :=
  match v.asIntVal with
  | some i =>
    match t with
    | .int_ => .vInt (wrapS 64 i)
    | .int8 => .vInt8 (wrapS 8 i)
    | .int16 => .vInt16 (wrapS 16 i)
    | .int32 => .vInt32 (wrapS 32 i)
    | .int64 => .vInt64 (wrapS 64 i)
    | .uint_ => .vUint (wrapU 64 i)
    | .uint8 => .vUint8 (wrapU 8 i)
    | .uint16 => .vUint16 (wrapU 16 i)
    | .uint32 => .vUint32 (wrapU 32 i)
    | .uint64 => .vUint64 (wrapU 64 i)
    | _ => v
  | none =>
    match v, t with
    | .vFloat64 f, .float32 => .vFloat32 f
    | .vFloat32 f, .float32 => .vFloat32 f
    | .vFloat32 f, .float64 => .vFloat64 f
    | _, _ => v

/-- `callbackArgConverter`: cell to Go value, or an error. `none` models a
Go panic (only the generic converter's unreachable default can panic). -/
def ArgConverter := Cell → Option (Except Err Value)

/-- `callbackArgCast`: a base converter composed with a target type. -/
structure callbackArgCast where
  f : ArgConverter
  typ : GoType

/-- `callbackArgCast.Run`: run the base converter, then check
`ConvertibleTo` and apply `Convert` to the target type. -/
def callbackArgCast.Run (c : callbackArgCast) (v : Cell) : Option (Except Err Value) :=
  match c.f v with
  | none => none
  | some (.error err) => some (.error err)
  | some (.ok val) =>
    if ¬ reflect_ConvertibleTo val.kind c.typ.kind then
      some (.error (pkgErr .MISUSE
        ("cannot convert " ++ val.typeName ++ " to " ++ c.typ.name)))
    else
      some (.ok (reflect_Convert val c.typ))

/-- `callbackArgInt64`. -/
def callbackArgInt64 (v : Cell) : Option (Except Err Value) :=
  if sqlite3_value_type v ≠ INTEGER then
    some (.error (pkgErr .MISUSE "argument must be an INTEGER"))
  else
    some (.ok (.vInt64 (sqlite3_value_int64 v)))

/-- `callbackArgBool`. -/
def callbackArgBool (v : Cell) : Option (Except Err Value) :=
  if sqlite3_value_type v ≠ INTEGER then
    some (.error (pkgErr .MISUSE "argument must be an INTEGER"))
  else
    let i := sqlite3_value_int64 v
    some (.ok (.vBool (if i ≠ 0 then true else false)))

/-- `callbackArgFloat64`. -/
def callbackArgFloat64 (v : Cell) : Option (Except Err Value) :=
  if sqlite3_value_type v ≠ FLOAT then
    some (.error (pkgErr .MISUSE "argument must be a FLOAT"))
  else
    some (.ok (.vFloat64 (sqlite3_value_double v)))

/-- `callbackArgBytes`: BLOB and TEXT cells both copy the full
engine-reported byte payload (`C.GoBytes` with `sqlite3_value_bytes`). -/
def callbackArgBytes (v : Cell) : Option (Except Err Value) :=
  if sqlite3_value_type v = BLOB then
    some (.ok (.vBytes (goBytes v)))
  else if sqlite3_value_type v = TEXT then
    some (.ok (.vBytes (goBytes v)))
  else
    some (.error (pkgErr .MISUSE "argument must be BLOB or TEXT"))

/-- `callbackArgString`: a BLOB cell is copied at its full length
(`C.GoStringN`); a TEXT cell is read as a nul-terminated C string
(`C.GoString`), stopping at the first NUL byte. -/
def callbackArgString (v : Cell) : Option (Except Err Value) :=
  if sqlite3_value_type v = BLOB then
    some (.ok (.vString (goStringN v)))
  else if sqlite3_value_type v = TEXT then
    some (.ok (.vString (goString v)))
  else
    some (.error (pkgErr .MISUSE "argument must be BLOB or TEXT"))

/-- `callbackArgGeneric`: dispatch on the cell's engine type code;
NULL becomes a nil byte slice; the default branch is `panic("unreachable")`,
modelled as `none`. -/
def callbackArgGeneric (v : Cell) : Option (Except Err Value) :=
  if sqlite3_value_type v = INTEGER then
    callbackArgInt64 v
  else if sqlite3_value_type v = FLOAT then
    callbackArgFloat64 v
  else if sqlite3_value_type v = TEXT then
    callbackArgString v
  else if sqlite3_value_type v = BLOB then
    callbackArgBytes v
  else if sqlite3_value_type v = NULL then
    some (.ok (.vBytes []))
  else
    none

/-- `callbackArg`: the argument-converter builder, dispatching on the
declared parameter type's kind. -/
def callbackArg (typ : GoType) : Except Err ArgConverter :=
  match typ.kind with
  | .interface_ =>
    if typ.numMethod ≠ 0 then
      .error (pkgErr .MISUSE "the only supported interface type is interface{}")
    else
      .ok callbackArgGeneric
  | .slice =>
    if typ.elemKind ≠ .uint8 then
      .error (pkgErr .MISUSE "the only supported slice type is []byte")
    else
      .ok callbackArgBytes
  | .string => .ok callbackArgString
  | .bool => .ok callbackArgBool
  | .int64 => .ok callbackArgInt64
  | .int8 | .int16 | .int32 | .uint8 | .uint16 | .uint32 | .uint64 | .int_ | .uint_ =>
    .ok (callbackArgCast.Run ⟨callbackArgInt64, typ⟩)
  | .float64 => .ok callbackArgFloat64
  | .float32 => .ok (callbackArgCast.Run ⟨callbackArgFloat64, typ⟩)
  | _ => .error (pkgErr .MISUSE ("don't know how to convert to " ++ typ.name))

/-- One write into the engine's result slot (`sqlite3_result_*`). -/
inductive EngineWrite where
  | wInt64 (i : Int)
  | wDouble (f : Float)
  | wText (s : List Nat)
  | wBlob (bs : List Nat)
  | wNull
  | wError (msg : String)
deriving Repr

/-- Whether a write is an error-result write. -/
def EngineWrite.isErrorWrite : EngineWrite → Bool
  | .wError _ => true
  | _ => false

/-- `callbackRetConverter`: a Go value to the ordered list of result-slot
writes performed plus the returned error; `none` models a Go panic (a
failing type assertion, unreachable for well-typed Go values). -/
def RetConverter := Value → Option (List EngineWrite × Option Err)

/-- `callbackRetInteger`: int64 passes through; other integer widths and
platform ints are `Convert`ed to int64; bool becomes 1/0; anything else is
a MISUSE error. On success writes via `sqlite3_result_int64`. -/
def callbackRetInteger (v : Value) : Option (List EngineWrite × Option Err) :=
  match v.kind with
  | .int64 =>
    match v with
    | .vInt64 i => some ([.wInt64 i], none)
    | _ => none
  | .int8 | .int16 | .int32 | .uint8 | .uint16 | .uint32 | .uint64 | .int_ | .uint_ =>
    match reflect_Convert v .int64 with
    | .vInt64 i => some ([.wInt64 i], none)
    | _ => none
  | .bool =>
    match v with
    | .vBool b => some ([.wInt64 (if b then 1 else 0)], none)
    | _ => none
  | _ =>
    some ([], some (pkgErr .MISUSE ("cannot convert " ++ v.typeName ++ " to INTEGER")))

/-- `callbackRetFloat`: float64 passes through; float32 is widened;
anything else is a MISUSE error. Writes via `sqlite3_result_double`. -/
def callbackRetFloat (v : Value) : Option (List EngineWrite × Option Err) :=
  match v.kind with
  | .float64 =>
    match v with
    | .vFloat64 f => some ([.wDouble f], none)
    | _ => none
  | .float32 =>
    match reflect_Convert v .float64 with
    | .vFloat64 f => some ([.wDouble f], none)
    | _ => none
  | _ =>
    some ([], some (pkgErr .MISUSE ("cannot convert " ++ v.typeName ++ " to FLOAT")))

/-- `callbackRetBlob`: a non-`[]byte` value is a MISUSE error with no
write; a nil or empty byte slice writes `sqlite3_result_null`; otherwise
the bytes are written via the copying `sqlite3_result_blob`. -/
def callbackRetBlob (v : Value) : Option (List EngineWrite × Option Err) :=
  if v.kind ≠ .slice ∨ v.elemKind ≠ .uint8 then
    some ([], some (pkgErr .MISUSE ("cannot convert " ++ v.typeName ++ " to BLOB")))
  else
    match v with
    | .vBytes bs =>
      if bs.length = 0 then
        some ([.wNull], none)
      else
        some ([.wBlob bs], none)
    | _ => none

/-- `callbackRetText`: a non-string value is a MISUSE error with no write;
otherwise the string is written via the nul-terminated, no-copy
`sqlite3_result_text` (through `cStr`, so the engine sees the bytes up to
the first NUL; `cStr` itself lives outside the marshaling file and is
modelled from the spec's nul-terminated no-copy primitive). -/
def callbackRetText (v : Value) : Option (List EngineWrite × Option Err) :=
  if v.kind ≠ .string then
    some ([], some (pkgErr .MISUSE ("cannot convert " ++ v.typeName ++ " to TEXT")))
  else
    match v with
    | .vString s => some ([.wText (s.takeWhile (fun b => b ≠ 0))], none)
    | _ => none

/-- `callbackRet`: the return-converter builder, dispatching on the
declared return type's kind. -/
def callbackRet (typ : GoType) : Except Err RetConverter :=
  match typ.kind with
  | .slice =>
    if typ.elemKind ≠ .uint8 then
      .error (pkgErr .MISUSE "the only supported slice type is []byte")
    else
      .ok callbackRetBlob
  | .string => .ok callbackRetText
  | .bool | .int8 | .int16 | .int32 | .int64 | .uint8 | .uint16 | .uint32 | .uint64
  | .int_ | .uint_ => .ok callbackRetInteger
  | .float32 | .float64 => .ok callbackRetFloat
  | _ => .error (pkgErr .MISUSE ("don't know how to convert to " ++ typ.name))

/-- `callbackError`: surface a host-side error through the engine's
error-result primitive, carrying the error's message. -/
def callbackError (err : Err) : List EngineWrite := [.wError err.msg]

/-- The per-call composition the registered function wrapper performs: run
the return converter, and if it returned an error surface it through
`callbackError`. The result is the full ordered list of result-slot writes
for the call. -/
def runRet (c : RetConverter) (v : Value) : Option (List EngineWrite) :=
  match c v with
  | none => none
  | some (ws, none) => some ws
  | some (ws, some err) => some (ws ++ callbackError err)

/-! ### Helper predicates for the verification statements -/

/-- The declared integer widths routed through the cast wrapper by
`callbackArg` (every integer width other than int64). -/
def castIntTypes : List GoType :=
  [.int8, .int16, .int32, .uint8, .uint16, .uint32, .uint64, .int_, .uint_]

/-- The representable range of a declared integer width. -/
def inIntRange : GoType → Int → Bool
  | .int8, v => decide (-(2 ^ 7) ≤ v) && decide (v < 2 ^ 7)
  | .int16, v => decide (-(2 ^ 15) ≤ v) && decide (v < 2 ^ 15)
  | .int32, v => decide (-(2 ^ 31) ≤ v) && decide (v < 2 ^ 31)
  | .int_, v => decide (-(2 ^ 63) ≤ v) && decide (v < 2 ^ 63)
  | .uint8, v => decide (0 ≤ v) && decide (v < 2 ^ 8)
  | .uint16, v => decide (0 ≤ v) && decide (v < 2 ^ 16)
  | .uint32, v => decide (0 ≤ v) && decide (v < 2 ^ 32)
  | .uint64, v => decide (0 ≤ v) && decide (v < 2 ^ 64)
  | .uint_, v => decide (0 ≤ v) && decide (v < 2 ^ 64)
  | _, _ => false

/-- The value Go's conversion semantics produce at a declared integer
width (reduction modulo the width, two's complement when signed). -/
def wrapVal : GoType → Int → Int
  | .int8, v => wrapS 8 v
  | .int16, v => wrapS 16 v
  | .int32, v => wrapS 32 v
  | .int_, v => wrapS 64 v
  | .uint8, v => wrapU 8 v
  | .uint16, v => wrapU 16 v
  | .uint32, v => wrapU 32 v
  | .uint64, v => wrapU 64 v
  | .uint_, v => wrapU 64 v
  | _, v => v

/-- Build the `reflect.Value` of a declared integer width holding `v`. -/
def mkIntValue : GoType → Int → Value
  | .int8, v => .vInt8 v
  | .int16, v => .vInt16 v
  | .int32, v => .vInt32 v
  | .int_, v => .vInt v
  | .uint8, v => .vUint8 v.toNat
  | .uint16, v => .vUint16 v.toNat
  | .uint32, v => .vUint32 v.toNat
  | .uint64, v => .vUint64 v.toNat
  | .uint_, v => .vUint v.toNat
  | _, v => .vInt64 v

/-- Whether a Go value is a byte slice (`[]byte`), the only dynamic type
the BLOB return converter accepts. -/
def isByteSliceVal : Value → Bool
  | .vBytes _ => true
  | .vSlice .uint8 _ => true
  | _ => false

/-- Whether a numeric Go value's payload lies within its own width (all
values produced by running Go code satisfy this). -/
def validInt : Value → Bool
  | .vInt i => decide (-(2 ^ 63) ≤ i) && decide (i < 2 ^ 63)
  | .vInt8 i => decide (-(2 ^ 7) ≤ i) && decide (i < 2 ^ 7)
  | .vInt16 i => decide (-(2 ^ 15) ≤ i) && decide (i < 2 ^ 15)
  | .vInt32 i => decide (-(2 ^ 31) ≤ i) && decide (i < 2 ^ 31)
  | .vInt64 i => decide (-(2 ^ 63) ≤ i) && decide (i < 2 ^ 63)
  | .vUint n => decide (n < 2 ^ 64)
  | .vUint8 n => decide (n < 2 ^ 8)
  | .vUint16 n => decide (n < 2 ^ 16)
  | .vUint32 n => decide (n < 2 ^ 32)
  | .vUint64 n => decide (n < 2 ^ 64)
  | _ => false

/-- The kinds accepted by the integer-family return converter. -/
def intFamilyKind : GoKind → Bool
  | .bool | .int_ | .int8 | .int16 | .int32 | .int64
  | .uint_ | .uint8 | .uint16 | .uint32 | .uint64 => true
  | _ => false

/-! ### Claims -/

/-- Claim C1, counterexample: a Cell of Kind Integer holding
5_000_000_000 presented to the cast converter for a 32-bit signed
parameter does NOT fail with MISUSE — Go's `reflect.Value.Convert`
truncates, so the conversion succeeds with 705032704
(= 5_000_000_000 mod 2^32). -/
theorem c1_out_of_range_succeeds :
    callbackArgCast.Run ⟨callbackArgInt64, GoType.int32⟩ (Cell.integer 5000000000)
      = some (.ok (Value.vInt32 705032704)) := rfl

/-- Claim C1 (amended): for every declared integer width other than 64-bit
signed, the cast converter on an Integer Cell holding v always succeeds,
yielding v reduced modulo the width (two's complement for signed widths);
when v is in the width's representable range the result is exactly v. It
never fails with MISUSE, in range or out. `callbackArg` builds exactly
this converter for those widths. -/
theorem c1_cast_wraps (t : GoType) (ht : t ∈ castIntTypes) (v : Int) :
    callbackArg t = .ok (callbackArgCast.Run ⟨callbackArgInt64, t⟩)
    ∧ callbackArgCast.Run ⟨callbackArgInt64, t⟩ (Cell.integer v)
        = some (.ok (mkIntValue t (wrapVal t v)))
    ∧ (inIntRange t v = true → wrapVal t v = v) := by
  fin_cases ht <;>
    refine ⟨rfl, rfl, fun h => ?_⟩ <;>
    simp only [inIntRange, Bool.and_eq_true, decide_eq_true_eq] at h <;>
    simp only [wrapVal, wrapS, wrapU] <;>
    (try split) <;>
    omega

/-- Claim C1, witness: declared type int32, Cell Integer 300 — in range,
the conversion succeeds and yields 300 at width int32. -/
theorem c1_witness :
    GoType.int32 ∈ castIntTypes
    ∧ inIntRange .int32 300 = true
    ∧ callbackArgCast.Run ⟨callbackArgInt64, .int32⟩ (Cell.integer 300)
        = some (.ok (Value.vInt32 300)) := by
  refine ⟨by decide, rfl, ?_⟩
  have h := (c1_cast_wraps .int32 (by decide) 300).2.1
  rw [h]
  rfl

/-- Claim C3: the generic/Any argument converter dispatches on the Cell's
Kind — Integer, Float, Text and Blob Cells give exactly what the
corresponding primitive converter gives, and a Null Cell gives the nil
byte-slice sentinel, never an error. -/
theorem c3_generic_delegates (i : Int) (f : Float) (t : List Nat) (b : List Nat) :
    callbackArgGeneric (.integer i) = callbackArgInt64 (.integer i)
    ∧ callbackArgGeneric (.float f) = callbackArgFloat64 (.float f)
    ∧ callbackArgGeneric (.text t) = callbackArgString (.text t)
    ∧ callbackArgGeneric (.blob b) = callbackArgBytes (.blob b)
    ∧ callbackArgGeneric .null = some (.ok (.vBytes [])) :=
  ⟨rfl, rfl, rfl, rfl, rfl⟩

/-- Claim C4: the Integer argument converter extracts exactly the 64-bit
value of an Integer Cell, the generic converter returns the identical
value on that Cell, and on any Cell whose Kind is not Integer the Integer
converter fails with MISUSE "argument must be an INTEGER". -/
theorem c4_int64_exact (i : Int) (c : Cell) (hc : sqlite3_value_type c ≠ INTEGER) :
    callbackArgInt64 (.integer i) = some (.ok (.vInt64 i))
    ∧ callbackArgGeneric (.integer i) = some (.ok (.vInt64 i))
    ∧ callbackArgInt64 c = some (.error (pkgErr .MISUSE "argument must be an INTEGER")) := by
  refine ⟨rfl, rfl, ?_⟩
  unfold callbackArgInt64
  rw [if_pos hc]

/-- Claim C4, witness: an Integer Cell holding 42 converts to 42; a Text
Cell fails with the MISUSE error. -/
theorem c4_witness :
    callbackArgInt64 (.integer 42) = some (.ok (.vInt64 42))
    ∧ callbackArgInt64 (.text [104]) =
        some (.error (pkgErr .MISUSE "argument must be an INTEGER")) := by
  have h := c4_int64_exact 42 (.text [104]) (by decide)
  exact ⟨h.1, h.2.2⟩

/-- Claim C9: on a Text Cell the String argument converter keeps only the
prefix before the first NUL byte (nul-terminated `C.GoString` extraction),
while the Bytes argument converter keeps the full engine-reported payload;
on the text "h\0i" the two disagree, so the String conversion is not
lossless. -/
theorem c9_text_nul (bs : List Nat) :
    callbackArgString (.text bs) = some (.ok (.vString (bs.takeWhile (fun b => b ≠ 0))))
    ∧ callbackArgBytes (.text bs) = some (.ok (.vBytes bs))
    ∧ callbackArgString (.text [104, 0, 105]) = some (.ok (.vString [104]))
    ∧ callbackArgBytes (.text [104, 0, 105]) = some (.ok (.vBytes [104, 0, 105]))
    ∧ ([104] : List Nat) ≠ [104, 0, 105] :=
  ⟨rfl, rfl, rfl, rfl, by decide⟩

/-- Claim C10: a HostValue of dynamic type uint64 holding v ≥ 2^63 makes
the integer-family return converter succeed, writing v - 2^64 — the
two's-complement reinterpretation, a negative 64-bit signed integer — via
the integer result primitive, with no out-of-range error. -/
theorem c10_uint64_wraps (n : Nat) (h1 : 2 ^ 63 ≤ n) (h2 : n < 2 ^ 64) :
    callbackRetInteger (.vUint64 n) = some ([.wInt64 ((n : Int) - 2 ^ 64)], none)
    ∧ ((n : Int) - 2 ^ 64) < 0 := by
  have hw : wrapS 64 (n : Int) = (n : Int) - 2 ^ 64 := by
    simp only [wrapS]
    split <;> omega
  constructor
  · show some ([EngineWrite.wInt64 (wrapS 64 (n : Int))], (none : Option Err))
        = some ([EngineWrite.wInt64 ((n : Int) - 2 ^ 64)], none)
    rw [hw]
  · omega

/-- Claim C10, witness: uint64 value 2^63 is written as -(2^63). -/
theorem c10_witness :
    callbackRetInteger (.vUint64 (2 ^ 63)) =
      some ([.wInt64 (((2 ^ 63 : Nat) : Int) - 2 ^ 64)], none)
    ∧ (((2 ^ 63 : Nat) : Int) - 2 ^ 64) < 0 :=
  c10_uint64_wraps (2 ^ 63) (by norm_num) (by norm_num)

/-- Claim C2: the BLOB return converter fails with MISUSE
"cannot convert X to BLOB" and writes nothing when the value is not a byte
slice; an empty (or nil, represented identically) byte slice writes engine
NULL, not an empty blob; a non-empty byte slice is written through the
copying blob result primitive. -/
theorem c2_ret_blob (v : Value) (hv : isByteSliceVal v = false) (bs : List Nat)
    (hbs : bs ≠ []) :
    callbackRetBlob v =
      some ([], some (pkgErr .MISUSE ("cannot convert " ++ v.typeName ++ " to BLOB")))
    ∧ callbackRetBlob (.vBytes []) = some ([.wNull], none)
    ∧ callbackRetBlob (.vBytes bs) = some ([.wBlob bs], none) := by
  refine ⟨?_, rfl, ?_⟩
  · cases v <;> first
      | rfl
      | (simp [isByteSliceVal] at hv; done)
      | (rename_i ek n
         cases ek <;> first
           | rfl
           | (simp [isByteSliceVal] at hv; done))
  · unfold callbackRetBlob
    rw [if_neg (by simp [Value.kind, Value.elemKind])]
    simp [List.length_eq_zero, hbs]

/-- Claim C2, witness: a struct value fails with the MISUSE message and no
write; the bytes [1, 2] are written as a blob. -/
theorem c2_witness :
    callbackRetBlob (.vStruct "T") =
      some ([], some (pkgErr .MISUSE "cannot convert T to BLOB"))
    ∧ callbackRetBlob (.vBytes []) = some ([.wNull], none)
    ∧ callbackRetBlob (.vBytes [1, 2]) = some ([.wBlob [1, 2]], none) := by
  have h := c2_ret_blob (.vStruct "T") rfl [1, 2] (by decide)
  exact ⟨h.1, h.2.1, h.2.2⟩

/-- Claim C5: the integer-family return converter writes 1 for true and 0
for false through the integer result primitive; every signed or unsigned
integer width (payload within its width) is converted to the 64-bit signed
value, wrapping two's complement, and written through the integer result
primitive; any other dynamic type, a struct included, returns a MISUSE
"cannot convert X to INTEGER" error with no write and no panic. -/
theorem c5_ret_integer (v : Value) (hv : validInt v = true) (w : Value)
    (hw : intFamilyKind w.kind = false) :
    callbackRetInteger (.vBool true) = some ([.wInt64 1], none)
    ∧ callbackRetInteger (.vBool false) = some ([.wInt64 0], none)
    ∧ callbackRetInteger v = some ([.wInt64 (wrapS 64 (v.asIntVal.getD 0))], none)
    ∧ callbackRetInteger w =
        some ([], some (pkgErr .MISUSE ("cannot convert " ++ w.typeName ++ " to INTEGER"))) := by
  refine ⟨rfl, rfl, ?_, ?_⟩
  · cases v <;> first
      | rfl
      | (simp [validInt] at hv; done)
      | (rename_i i
         simp only [validInt, Bool.and_eq_true, decide_eq_true_eq] at hv
         show some ([EngineWrite.wInt64 i], (none : Option Err))
             = some ([EngineWrite.wInt64 (wrapS 64 i)], none)
         have hwr : wrapS 64 i = i := by simp only [wrapS]; split <;> omega
         rw [hwr])
  · cases w <;> first
      | rfl
      | (simp [intFamilyKind, Value.kind] at hw; done)

/-- Claim C5, witness: true writes 1; an int32 value -5 writes -5; a
struct value yields the MISUSE error with no write. -/
theorem c5_witness :
    callbackRetInteger (.vBool true) = some ([.wInt64 1], none)
    ∧ callbackRetInteger (.vInt32 (-5)) = some ([.wInt64 (-5)], none)
    ∧ callbackRetInteger (.vStruct "myStruct") =
        some ([], some (pkgErr .MISUSE "cannot convert myStruct to INTEGER")) := by
  have h := c5_ret_integer (.vInt32 (-5)) (by decide) (.vStruct "myStruct") rfl
  refine ⟨h.1, ?_, h.2.2.2⟩
  have h2 := h.2.2.1
  rw [h2]
  rfl

/-- Claim C6: the converter builders fail at registration time with
MISUSE: a slice of non-bytes gives "the only supported slice type is
[]byte" (both builders), an interface type exposing methods gives "the
only supported interface type is interface{}" (argument builder), and any
other unsupported declared type gives "don't know how to convert to X".
A build failure returns no converter at all, so nothing is deferred to
call time. -/
theorem c6_build_time_failures (e : GoType) (he : e.kind ≠ .uint8) (n : Nat)
    (hn : n ≠ 0) (s : String) :
    callbackArg (.slice e) =
      .error (pkgErr .MISUSE "the only supported slice type is []byte")
    ∧ callbackArg (.interface_ n) =
        .error (pkgErr .MISUSE "the only supported interface type is interface{}")
    ∧ callbackArg (.struct_ s) =
        .error (pkgErr .MISUSE ("don't know how to convert to " ++ s))
    ∧ callbackRet (.slice e) =
        .error (pkgErr .MISUSE "the only supported slice type is []byte")
    ∧ callbackRet (.struct_ s) =
        .error (pkgErr .MISUSE ("don't know how to convert to " ++ s)) := by
  refine ⟨?_, ?_, rfl, ?_, rfl⟩
  · cases e <;> first | exact absurd rfl he | rfl
  · cases n with
    | zero => exact absurd rfl hn
    | succ m => rfl
  · cases e <;> first | exact absurd rfl he | rfl

/-- Claim C6, witness: []string, an interface with one method, and a
struct all fail at build time with the respective messages. -/
theorem c6_witness :
    callbackArg (.slice .string) =
      .error (pkgErr .MISUSE "the only supported slice type is []byte")
    ∧ callbackArg (.interface_ 1) =
        .error (pkgErr .MISUSE "the only supported interface type is interface{}")
    ∧ callbackRet (.struct_ "T") =
        .error (pkgErr .MISUSE ("don't know how to convert to " ++ "T")) := by
  have h := c6_build_time_failures .string (by decide) 1 (by decide) "T"
  exact ⟨h.1, h.2.1, h.2.2.2.2⟩

/-- Claim C8: each argument converter presented with a Cell of a Kind it
does not require returns the MISUSE mismatch error — never a panic and
never a corrupted value — and the generic converter's unreachable default
branch (the only panic site) is never taken on any Cell of the five
engine Kinds. -/
theorem c8_mismatch_safe (c : Cell) :
    (sqlite3_value_type c ≠ INTEGER →
      callbackArgInt64 c = some (.error (pkgErr .MISUSE "argument must be an INTEGER"))
      ∧ callbackArgBool c = some (.error (pkgErr .MISUSE "argument must be an INTEGER")))
    ∧ (sqlite3_value_type c ≠ FLOAT →
      callbackArgFloat64 c = some (.error (pkgErr .MISUSE "argument must be a FLOAT")))
    ∧ (sqlite3_value_type c ≠ BLOB → sqlite3_value_type c ≠ TEXT →
      callbackArgBytes c = some (.error (pkgErr .MISUSE "argument must be BLOB or TEXT"))
      ∧ callbackArgString c = some (.error (pkgErr .MISUSE "argument must be BLOB or TEXT")))
    ∧ callbackArgGeneric c ≠ none := by
  refine ⟨fun h => ⟨?_, ?_⟩, fun h => ?_, fun hb ht => ⟨?_, ?_⟩, ?_⟩
  · unfold callbackArgInt64; rw [if_pos h]
  · unfold callbackArgBool; rw [if_pos h]
  · unfold callbackArgFloat64; rw [if_pos h]
  · unfold callbackArgBytes; rw [if_neg hb, if_neg ht]
  · unfold callbackArgString; rw [if_neg hb, if_neg ht]
  · cases c <;> simp [callbackArgGeneric, callbackArgInt64, callbackArgFloat64,
      callbackArgString, callbackArgBytes, sqlite3_value_type,
      INTEGER, FLOAT, TEXT, BLOB, NULL]

/-- Claim C8, witness: a Float Cell to the Integer converter and an
Integer Cell to the Bytes converter both give the MISUSE mismatch error,
and the generic converter does not panic on the Float Cell. -/
theorem c8_witness :
    callbackArgInt64 (.float 1.5) =
      some (.error (pkgErr .MISUSE "argument must be an INTEGER"))
    ∧ callbackArgBytes (.integer 7) =
        some (.error (pkgErr .MISUSE "argument must be BLOB or TEXT"))
    ∧ callbackArgGeneric (.float 1.5) ≠ none := by
  have h1 := c8_mismatch_safe (.float 1.5)
  have h2 := c8_mismatch_safe (.integer 7)
  exact ⟨(h1.1 (by decide)).1, (h2.2.2.1 (by decide) (by decide)).1, h1.2.2.2⟩

/-- The BLOB return converter on a byte-slice value, with the type check
discharged. -/
theorem retBlob_bytes (bs : List Nat) :
    callbackRetBlob (.vBytes bs) =
      if bs.length = 0 then some ([.wNull], none) else some ([.wBlob bs], none) := by
  unfold callbackRetBlob
  rw [if_neg (by simp [Value.kind, Value.elemKind])]

/-- Each return converter, whenever it returns at all, returns either one
non-error write together with no error, or no writes together with an
error. -/
theorem retConverter_shape (c : RetConverter)
    (hc : c = callbackRetInteger ∨ c = callbackRetFloat ∨ c = callbackRetBlob
      ∨ c = callbackRetText) (v : Value) :
    c v = none
    ∨ (∃ w, c v = some ([w], none) ∧ w.isErrorWrite = false)
    ∨ (∃ e, c v = some ([], some e)) := by
  rcases hc with rfl | rfl | rfl | rfl <;> cases v <;>
    first
      | (left; rfl)
      | (right; left; exact ⟨_, rfl, rfl⟩)
      | (right; right; exact ⟨_, rfl⟩)
      | (rename_i bs
         rw [retBlob_bytes]
         split
         · right; left; exact ⟨_, rfl, rfl⟩
         · right; left; exact ⟨_, rfl, rfl⟩)
      | (rename_i ek n
         cases ek <;>
           first
             | (left; rfl)
             | (right; right; exact ⟨_, rfl⟩))

/-- Claim C7: every conversion yields exactly one of a success or an
error (the `Except`/pair result structurally excludes both and neither),
and per call the engine result slot is written exactly once: a return
converter that succeeds performs exactly one non-error result-set write
and returns no error; one that fails performs no write and the
error-surfacing routine then writes the error message exactly once; the
composition therefore always performs exactly one write. -/
theorem c7_result_slot_once (c : RetConverter)
    (hc : c = callbackRetInteger ∨ c = callbackRetFloat ∨ c = callbackRetBlob
      ∨ c = callbackRetText)
    (v : Value) (p : List EngineWrite × Option Err) (hp : c v = some p) :
    ((p.2 = none ∧ ∃ w, p.1 = [w] ∧ w.isErrorWrite = false)
      ∨ (p.1 = [] ∧ ∃ e, p.2 = some e))
    ∧ (∀ e : Err, (callbackError e).length = 1)
    ∧ (∃ ws, runRet c v = some ws ∧ ws.length = 1) := by
  rcases retConverter_shape c hc v with hnone | ⟨w, hw, hwe⟩ | ⟨e, he⟩
  · rw [hnone] at hp
    exact absurd hp (by simp)
  · rw [hw] at hp
    injection hp with hp2
    subst hp2
    refine ⟨.inl ⟨rfl, w, rfl, hwe⟩, fun e => rfl, ⟨[w], ?_, rfl⟩⟩
    unfold runRet
    rw [hw]
  · rw [he] at hp
    injection hp with hp2
    subst hp2
    refine ⟨.inr ⟨rfl, e, rfl⟩, fun e2 => rfl, ⟨[.wError e.msg], ?_, rfl⟩⟩
    unfold runRet
    rw [he]
    rfl

/-- Claim C7, witness: returning true through the integer converter makes
exactly one write into the result slot; a failing BLOB conversion makes
exactly one (error) write; `callbackError` always writes once. -/
theorem c7_witness :
    runRet callbackRetInteger (.vBool true) = some [EngineWrite.wInt64 1]
    ∧ runRet callbackRetBlob (.vStruct "T") =
        some [EngineWrite.wError "cannot convert T to BLOB"]
    ∧ (callbackError (pkgErr .MISUSE "boom")).length = 1 := by
  have h := c7_result_slot_once callbackRetInteger (Or.inl rfl) (.vBool true)
      ([EngineWrite.wInt64 1], none) rfl
  exact ⟨rfl, rfl, h.2.1 (pkgErr .MISUSE "boom")⟩

end GoSqlite
